import Mathlib

/-!
Shallow embedding of the sysrepo subscription/shared-memory core
(`src/common.c`) and proofs about it.

Modelling conventions:
* machine integers are `Nat`/`Int` with explicit `% 2 ^ 32` where 32-bit
  unsigned overflow matters;
* C strings are Lean `String`s (or `List Nat` byte sequences for the hash,
  which operates on raw bytes); a possibly-NULL string is `Option String`;
* fallible system calls (allocation, `strdup`, shm open, `fstat`,
  `ftruncate`, `mmap`, lock acquisition) are parameterised by explicit
  oracle arguments stating whether the call succeeds, so every control-flow
  path of the C code is reachable in the model;
* `free`/`munmap` of heap memory is a no-op on values — the model tracks the
  *visible* registry state (the first `count` elements of each array), which
  is exactly what the C code exposes; an array whose count is decremented
  loses its last visible element (`List.dropLast`).
-/

namespace Sysrepo

/-! ## Shared-memory segment descriptor (`sr_shm_t`) -/

/-- `sr_shm_t`: file descriptor, mapped size and mapped address
(`none` = not mapped / `MAP_FAILED` recovery state). -/
structure Shm where
  fd : Int
  size : Nat
  addr : Option Nat
deriving Repr, DecidableEq

/-- A fresh, unopened segment (`fd = -1`, nothing mapped). -/
def shmNull : Shm := ⟨-1, 0, none⟩

/-- `sr_shm_clear`: unmap (if mapped), close the fd (if open), zero the size. -/
def sr_shm_clear (_s : Shm) : Shm := ⟨-1, 0, none⟩

/-! ## Jenkins one-at-a-time hash (`sr_str_hash`, common.c:2461) -/

/-- One loop iteration of `sr_str_hash`, on 32-bit unsigned arithmetic:
`hash += str[i]; hash += hash << 10; hash ^= hash >> 6;`. -/
def sr_str_hash_step (hash b : Nat) : Nat :=
  let h1 := (hash + b) % 2 ^ 32
  let h2 := (h1 + h1 * 2 ^ 10) % 2 ^ 32
  h2 ^^^ (h2 / 2 ^ 6)

/-- Final avalanche of `sr_str_hash`:
`hash += hash << 3; hash ^= hash >> 11; hash += hash << 15;`. -/
def sr_str_hash_finish (hash : Nat) : Nat :=
  let h1 := (hash + hash * 2 ^ 3) % 2 ^ 32
  let h2 := h1 ^^^ (h1 / 2 ^ 11)
  (h2 + h2 * 2 ^ 15) % 2 ^ 32

/-- `sr_str_hash` (common.c:2461): Bob Jenkins's one-at-a-time hash of the
byte sequence of the string, no seed, 32-bit unsigned arithmetic. -/
def sr_str_hash (str : List Nat) : Nat :=
  sr_str_hash_finish (str.foldl sr_str_hash_step 0)

/-- Modelled from the spec: the documented Jenkins one-at-a-time algorithm —
for each byte `hash += byte; hash += hash << 10; hash ^= hash >> 6`, then
`hash += hash << 3; hash ^= hash >> 11; hash += hash << 15`, all on 32-bit
unsigned words with no seed.  Written by direct recursion over the byte list
so it can be compared with the code-derived `sr_str_hash`. -/
def jenkins_oaat_core (hash : Nat) : List Nat → Nat
  | [] => hash
  | b :: rest =>
      let h1 := (hash + b) % 2 ^ 32
      let h2 := (h1 + h1 * 2 ^ 10) % 2 ^ 32
      let h3 := h2 ^^^ (h2 / 2 ^ 6)
      jenkins_oaat_core h3 rest

/-- Modelled from the spec: full documented Jenkins one-at-a-time hash. -/
def jenkins_oaat (bytes : List Nat) : Nat :=
  let h := jenkins_oaat_core 0 bytes
  let h1 := (h + h * 2 ^ 3) % 2 ^ 32
  let h2 := h1 ^^^ (h1 / 2 ^ 11)
  (h2 + h2 * 2 ^ 15) % 2 ^ 32

/-! ## Shared-segment path generation (`sr_path_sub_shm`, common.c:1033) -/

/-- One lowercase hexadecimal digit. -/
def hexChar (n : Nat) : Char :=
  if n < 10 then Char.ofNat (48 + n) else Char.ofNat (87 + n)

/-- `%08x` for a value below `2 ^ 32`: exactly eight lowercase hex digits,
zero-padded, most significant first. -/
def hex8 (n : Nat) : String :=
  String.mk ((List.range 8).map fun i => hexChar (n / 16 ^ (7 - i) % 16))

/-- `sr_path_sub_shm` (common.c:1033): builds
`"<root>/sr_<module>.<suffix1>[.<8-hex-digit suffix2>]"`.  The discriminator
is printed iff `suffix2 > -1`, cast to `uint32_t` (`% 2 ^ 32`) and formatted
with `"%08x"`.  `shm_dir` stands for the `SR_SHM_DIR` compile-time constant;
`abs_path` selects it versus the empty prefix, as in the C. -/
def sr_path_sub_shm (shm_dir mod_name suffix1 : String) (suffix2 : Int)
    (abs_path : Bool) : String :=
  let root := if abs_path then shm_dir else ""
  if suffix2 > -1 then
    root ++ "/sr_" ++ mod_name ++ "." ++ suffix1 ++ "." ++ hex8 (suffix2.toNat % 2 ^ 32)
  else
    root ++ "/sr_" ++ mod_name ++ "." ++ suffix1

/-- Modelled from the spec: the documented external naming scheme
`<root>/sr_<module>.<kind-suffix>[.<8-hex-digit-discriminator>]` with the
discriminator, when present, printed as lowercase hex zero-padded to 8
digits. -/
def spec_sub_shm_path (root mod_name suffix : String) : Option Nat → String
  | some disc => root ++ "/sr_" ++ mod_name ++ "." ++ suffix ++ "." ++ hex8 disc
  | none => root ++ "/sr_" ++ mod_name ++ "." ++ suffix

/-! ## Absolute timeout computation (`sr_time_get`, common.c:1501) -/

/-- `sr_time_get` (common.c:1501): adds `add_ms` milliseconds to the current
time `(sec, nsec)` and normalises.  `add_ms` is a `uint32_t`, so the C line
`add_ms += ts->tv_nsec / 1000000;` wraps modulo `2 ^ 32`; `tv_sec`/`tv_nsec`
are wide signed fields modelled exactly. -/
def sr_time_get (sec : Int) (nsec : Nat) (add_ms : Nat) : Int × Nat :=
  let a := (add_ms + nsec / 1000000) % 2 ^ 32
  let n1 := nsec % 1000000
  let n2 := n1 + (a % 1000) * 1000000
  (sec + (a / 1000 : Nat), n2)

/-! ## Process-shared rwlock acquisition (`sr_rwlock`, common.c:1738) -/

/-- Outcome of an `sr_rwlock` acquisition attempt. -/
inductive RwResult where
  | okRead
  | okWrite
  | errTimeout
deriving Repr, DecidableEq

/-- `sr_rwlock` (common.c:1738).  State observed: the `readers` counter.
Oracles: `mutexOk` — whether `pthread_mutex_timedlock` succeeds before the
absolute timeout; `condReachesZero` — whether, while a writer waits on the
condition variable, other processes release their read locks and broadcast
before the timeout (if not, `pthread_cond_timedwait` returns `ETIMEDOUT`,
the code unlocks the mutex and returns a lock-timeout error).  Returns
(result, readers counter after the call as left by this call, whether the
caller holds the mutex on return). -/
def sr_rwlock (readers : Nat) (wr mutexOk condReachesZero : Bool) :
    RwResult × Nat × Bool :=
  if !mutexOk then
    (.errTimeout, readers, false)
  else if wr then
    if readers = 0 then
      (.okWrite, readers, true)
    else if condReachesZero then
      (.okWrite, 0, true)
    else
      (.errTimeout, readers, false)
  else
    (.okRead, readers + 1, false)

/-! ## Shared-memory remap (`sr_shm_remap`, common.c:1519) -/

/-- Observable side effects of `sr_shm_remap`, in call order. -/
inductive ShmEvent where
  | fstatEv
  | munmapEv
  | ftruncateEv (size : Nat)
  | mmapEv (size : Nat) (readWrite shared : Bool)
deriving Repr, DecidableEq

/-- Body of `sr_shm_remap` after the file size is known:
the no-op check, the conditional `munmap`/`ftruncate`, and the `mmap`. -/
def sr_shm_remap_core (shm : Shm) (new_shm_size shm_file_size : Nat)
    (fsEv : List ShmEvent) (ftruncOk : Bool) (mmapRes : Option Nat) :
    Bool × Shm × List ShmEvent :=
  if (new_shm_size = 0 ∧ shm_file_size = shm.size) ∨
      (new_shm_size ≠ 0 ∧ new_shm_size = shm.size) then
    -- mapping is fine, the size has not changed
    (false, shm, fsEv)
  else
    let ev1 := fsEv ++ (if shm.addr.isSome then [ShmEvent.munmapEv] else [])
    -- truncate if needed
    if new_shm_size ≠ 0 ∧ ftruncOk = false then
      (true, { shm with addr := none }, ev1 ++ [.ftruncateEv new_shm_size])
    else
      let ev2 := ev1 ++ (if new_shm_size ≠ 0 then [ShmEvent.ftruncateEv new_shm_size] else [])
      let newSize := if new_shm_size ≠ 0 then new_shm_size else shm_file_size
      match mmapRes with
      | none => (true, { shm with addr := none, size := newSize },
          ev2 ++ [.mmapEv newSize true true])
      | some a => (false, { shm with addr := some a, size := newSize },
          ev2 ++ [.mmapEv newSize true true])

/-- `sr_shm_remap` (common.c:1519).  `new_shm_size = 0` means "no explicit
new size" (as in the C, where 0 is the "unset" value).  Oracles:
`fileSize` — result of `sr_file_get_size` (`none` = `fstat` failure),
`ftruncOk` — whether `ftruncate` succeeds, `mmapRes` — address returned by
`mmap` (`none` = `MAP_FAILED`).  Returns (error?, new segment state, event
trace). -/
def sr_shm_remap (shm : Shm) (new_shm_size : Nat) (fileSize : Option Nat)
    (ftruncOk : Bool) (mmapRes : Option Nat) : Bool × Shm × List ShmEvent :=
  -- read the new shm size if not set
  if new_shm_size = 0 then
    match fileSize with
    | none => (true, shm, [.fstatEv])
    | some fs => sr_shm_remap_core shm 0 fs [.fstatEv] ftruncOk mmapRes
  else
    sr_shm_remap_core shm new_shm_size 0 [] ftruncOk mmapRes

/-! ## Subscription registry data model (`sr_subscription_ctx_t` and the
`modsub_*_s` structures from common.h, as used by common.c) -/

/-- One config-change subscription entry (element of `modsub_conf_s.subs`). -/
structure ConfEntry where
  xpath : Option String
  priority : Nat
  opts : Nat
  cb : Nat
  private_data : Nat
  event_id : Nat
  event : Nat
deriving Repr, DecidableEq

/-- `modsub_conf_s`: one config-change group, keyed by (module name,
datastore), owning a shared segment and its entry list. -/
structure ModsubConf where
  module_name : String
  ds : Nat
  sub_shm : Shm
  subs : List ConfEntry
deriving Repr, DecidableEq

/-- One data-provide subscription entry (element of `modsub_dp_s.subs`);
each entry owns its own per-path segment. -/
structure DpEntry where
  xpath : String
  cb : Nat
  private_data : Nat
  sub_shm : Shm
deriving Repr, DecidableEq

/-- `modsub_dp_s`: one data-provide group, keyed by module name. -/
structure ModsubDp where
  module_name : String
  subs : List DpEntry
deriving Repr, DecidableEq

/-- `modsub_rpc_s`: one RPC/action subscription (flat list, no grouping). -/
structure ModsubRpc where
  xpath : String
  cb : Option Nat
  tree_cb : Option Nat
  private_data : Nat
  sub_shm : Shm
deriving Repr, DecidableEq

/-- One notification subscription entry (element of `modsub_notif_s.subs`). -/
structure NotifEntry where
  xpath : Option String
  start_time : Int
  stop_time : Int
  replayed : Bool
  cb : Option Nat
  tree_cb : Option Nat
  private_data : Nat
deriving Repr, DecidableEq

/-- `modsub_notif_s`: one notification group, keyed by module name. -/
structure ModsubNotif where
  module_name : String
  sub_shm : Shm
  subs : List NotifEntry
deriving Repr, DecidableEq

/-- `sr_subscription_ctx_t`: the per-handle registry.  Each C
(array pointer, count) pair is modelled as the list of its `count` visible
elements. -/
structure SubsCtx where
  conf_subs : List ModsubConf
  dp_subs : List ModsubDp
  rpc_subs : List ModsubRpc
  notif_subs : List ModsubNotif
  evpipe_num : Nat
deriving Repr, DecidableEq

/-- Result of an add/delete registry operation: whether an error was
returned, the registry state at return, and whether the handle's subs lock
is still held at return. -/
structure OpResult where
  err : Bool
  state : SubsCtx
  lock_held : Bool
deriving Repr, DecidableEq

/-! ## `sr_sub_conf_add` (common.c:35) -/

/-- Oracle describing which fallible step of `sr_sub_conf_add` fails.
`shm_open` is the result of `sr_shmsub_open_map` (`none` = failure); the
other fields tell whether `realloc`/`strdup`/the subs-lock acquisition
fail. -/
structure ConfAddOracle where
  mlock_fail : Bool
  realloc_groups_fail : Bool
  strdup_mod_fail : Bool
  shm_open : Option Shm
  realloc_entries_fail : Bool
  strdup_xpath_fail : Bool
deriving Repr, DecidableEq

/-- Shared tail of `sr_sub_conf_add` once the target group is known:
append the new entry.  `isNewGroup` records whether `mem[1]` (the duplicated
module name) is non-NULL, which drives the error-cleanup behaviour:
on `realloc(conf_sub->subs)` failure the cleanup runs
`sr_shm_clear(&conf_sub->sub_shm)` on the *visible* group and, when
`mem[1]` is set, decrements `conf_sub_count`; on `strdup(xpath)` failure
the code uses `SR_CHECK_MEM_RET` and returns *without unlocking and without
any cleanup*.  `gi` is the index of the target group in `s.conf_subs`. -/
def sr_sub_conf_add_entry (xpath : Option String) (cb pd priority opts : Nat)
    (o : ConfAddOracle) (isNewGroup : Bool) (s : SubsCtx) (gi : Nat) : OpResult :=
  if o.realloc_entries_fail then
    -- error_unlock: unlock, free mem[], sr_shm_clear(&conf_sub->sub_shm),
    -- and (iff mem[1] != NULL) --subs->conf_sub_count
    let s1 := { s with conf_subs :=
      s.conf_subs.modify (fun g => { g with sub_shm := sr_shm_clear g.sub_shm }) gi }
    let s2 := if isNewGroup then { s1 with conf_subs := s1.conf_subs.dropLast } else s1
    ⟨true, s2, false⟩
  else if xpath.isSome ∧ o.strdup_xpath_fail then
    -- SR_CHECK_MEM_RET: returns err_info directly, subs lock still held
    ⟨true, s, true⟩
  else
    let e : ConfEntry := ⟨xpath, priority, opts, cb, pd, 0, 0⟩
    ⟨false, { s with conf_subs :=
      s.conf_subs.modify (fun g => { g with subs := g.subs ++ [e] }) gi }, false⟩

/-- `sr_sub_conf_add` (common.c:35): find or create the (module, datastore)
group, then append the entry.  A new group is made visible (count
incremented) only after `sr_shmsub_open_map` succeeds, but the error
cleanup decrements `conf_sub_count` whenever `mem[1]` (the duplicated
module name) is non-NULL — even on the shm-open failure path, where the
count was never incremented. -/
def sr_sub_conf_add (mod_name : String) (xpath : Option String) (ds : Nat)
    (cb pd priority opts : Nat) (o : ConfAddOracle) (s : SubsCtx) : OpResult :=
  if o.mlock_fail then
    ⟨true, s, false⟩
  else
    match s.conf_subs.findIdx? (fun g => g.module_name = mod_name ∧ g.ds = ds) with
    | some i =>
        sr_sub_conf_add_entry xpath cb pd priority opts o false s i
    | none =>
        if o.realloc_groups_fail then
          -- error_unlock with conf_sub = NULL, mem[1] = NULL: state unchanged
          ⟨true, s, false⟩
        else if o.strdup_mod_fail then
          -- error_unlock: conf_sub points at the invisible slot (beyond the
          -- count), mem[1] = NULL: visible state unchanged
          ⟨true, s, false⟩
        else
          match o.shm_open with
          | none =>
              -- sr_shmsub_open_map failed before ++conf_sub_count, yet the
              -- cleanup sees mem[1] != NULL and decrements the count anyway:
              -- the last *existing* group vanishes from the visible registry
              ⟨true, { s with conf_subs := s.conf_subs.dropLast }, false⟩
          | some shm =>
              -- ++subs->conf_sub_count: the new group becomes visible
              let g : ModsubConf := ⟨mod_name, ds, shm, []⟩
              let s1 := { s with conf_subs := s.conf_subs ++ [g] }
              sr_sub_conf_add_entry xpath cb pd priority opts o true s1
                (s1.conf_subs.length - 1)

/-! ## `sr_sub_dp_add` (common.c:192) -/

/-- Oracle for the fallible steps of `sr_sub_dp_add`. -/
structure DpAddOracle where
  mlock_fail : Bool
  realloc_groups_fail : Bool
  strdup_mod_fail : Bool
  realloc_entries_fail : Bool
  strdup_xpath_fail : Bool
  shm_open : Option Shm
deriving Repr, DecidableEq

/-- Shared tail of `sr_sub_dp_add`: append the new entry to group `gi`.
All failures go through `error_unlock`, which frees `mem[]` and, iff
`mem[1]` is non-NULL (`isNewGroup`), decrements `dp_sub_count` — undoing
the `++dp_sub_count` already performed for a freshly created group. -/
def sr_sub_dp_add_entry (xpath : String) (cb pd : Nat) (o : DpAddOracle)
    (isNewGroup : Bool) (s : SubsCtx) (gi : Nat) : OpResult :=
  let undo := fun (s1 : SubsCtx) =>
    if isNewGroup then { s1 with dp_subs := s1.dp_subs.dropLast } else s1
  if o.realloc_entries_fail then
    ⟨true, undo s, false⟩
  else if o.strdup_xpath_fail then
    ⟨true, undo s, false⟩
  else
    match o.shm_open with
    | none => ⟨true, undo s, false⟩
    | some shm =>
        let e : DpEntry := ⟨xpath, cb, pd, shm⟩
        ⟨false, { s with dp_subs :=
          s.dp_subs.modify (fun g => { g with subs := g.subs ++ [e] }) gi }, false⟩

/-- `sr_sub_dp_add` (common.c:192): find or create the module group (a new
group is made visible right after its module name is duplicated, *before*
the entry is appended and its per-path segment opened; later failures undo
the increment in `error_unlock`), then append the entry with its own
segment keyed by `sr_str_hash(xpath)`. -/
def sr_sub_dp_add (mod_name xpath : String) (cb pd : Nat) (o : DpAddOracle)
    (s : SubsCtx) : OpResult :=
  if o.mlock_fail then
    ⟨true, s, false⟩
  else
    match s.dp_subs.findIdx? (fun g => g.module_name = mod_name) with
    | some i => sr_sub_dp_add_entry xpath cb pd o false s i
    | none =>
        if o.realloc_groups_fail then
          ⟨true, s, false⟩
        else if o.strdup_mod_fail then
          ⟨true, s, false⟩
        else
          -- ++subs->dp_sub_count happens here, before the entry is added
          let g : ModsubDp := ⟨mod_name, []⟩
          let s1 := { s with dp_subs := s.dp_subs ++ [g] }
          sr_sub_dp_add_entry xpath cb pd o true s1 (s1.dp_subs.length - 1)

/-! ## `sr_sub_rpc_add` (common.c:336) -/

/-- Oracle for the fallible steps of `sr_sub_rpc_add`. -/
structure RpcAddOracle where
  mlock_fail : Bool
  realloc_fail : Bool
  strdup_xpath_fail : Bool
  shm_open : Option Shm
deriving Repr, DecidableEq

/-- `sr_sub_rpc_add` (common.c:336): append one RPC subscription; the count
is incremented only after every step (including the shm open) succeeds, and
every failure path leaves the visible registry unchanged and unlocks. -/
def sr_sub_rpc_add (xpath : String) (cb tree_cb : Option Nat) (pd : Nat)
    (o : RpcAddOracle) (s : SubsCtx) : OpResult :=
  if o.mlock_fail then
    ⟨true, s, false⟩
  else if o.realloc_fail then
    ⟨true, s, false⟩
  else if o.strdup_xpath_fail then
    ⟨true, s, false⟩
  else
    match o.shm_open with
    | none => ⟨true, s, false⟩
    | some shm =>
        ⟨false, { s with rpc_subs := s.rpc_subs ++ [⟨xpath, cb, tree_cb, pd, shm⟩] }, false⟩

/-! ## `sr_sub_notif_add` (common.c:432) -/

/-- Oracle for the fallible steps of `sr_sub_notif_add`. -/
structure NotifAddOracle where
  mlock_fail : Bool
  realloc_groups_fail : Bool
  strdup_mod_fail : Bool
  shm_open : Option Shm
  realloc_entries_fail : Bool
  strdup_xpath_fail : Bool
deriving Repr, DecidableEq

/-- Shared tail of `sr_sub_notif_add`: append the entry to group `gi`.
Error cleanup: iff `mem[1]` is non-NULL (`isNewGroup`) the count is
decremented and the slot's shm cleared. -/
def sr_sub_notif_add_entry (xpath : Option String) (start_time stop_time : Int)
    (cb tree_cb : Option Nat) (pd : Nat) (o : NotifAddOracle)
    (isNewGroup : Bool) (s : SubsCtx) (gi : Nat) : OpResult :=
  let undo := fun (s1 : SubsCtx) =>
    if isNewGroup then { s1 with notif_subs := s1.notif_subs.dropLast } else s1
  if o.realloc_entries_fail then
    ⟨true, undo s, false⟩
  else if xpath.isSome ∧ o.strdup_xpath_fail then
    ⟨true, undo s, false⟩
  else
    let e : NotifEntry := ⟨xpath, start_time, stop_time, false, cb, tree_cb, pd⟩
    ⟨false, { s with notif_subs :=
      s.notif_subs.modify (fun g => { g with subs := g.subs ++ [e] }) gi }, false⟩

/-- `sr_sub_notif_add` (common.c:432): find or create the module group (the
segment is opened before the count increment, but the cleanup decrements
`notif_sub_count` whenever `mem[1]` is non-NULL — also on the shm-open
failure path where the count was never incremented), then append the
entry. -/
def sr_sub_notif_add (mod_name : String) (xpath : Option String)
    (start_time stop_time : Int) (cb tree_cb : Option Nat) (pd : Nat)
    (o : NotifAddOracle) (s : SubsCtx) : OpResult :=
  if o.mlock_fail then
    ⟨true, s, false⟩
  else
    match s.notif_subs.findIdx? (fun g => g.module_name = mod_name) with
    | some i =>
        sr_sub_notif_add_entry xpath start_time stop_time cb tree_cb pd o false s i
    | none =>
        if o.realloc_groups_fail then
          ⟨true, s, false⟩
        else if o.strdup_mod_fail then
          ⟨true, s, false⟩
        else
          match o.shm_open with
          | none =>
              -- cleanup sees mem[1] != NULL and decrements the never-
              -- incremented count: the last existing group vanishes
              ⟨true, { s with notif_subs := s.notif_subs.dropLast }, false⟩
          | some shm =>
              let g : ModsubNotif := ⟨mod_name, shm, []⟩
              let s1 := { s with notif_subs := s.notif_subs ++ [g] }
              sr_sub_notif_add_entry xpath start_time stop_time cb tree_cb pd o true s1
                (s1.notif_subs.length - 1)

/-! ## Delete operations (common.c:123, 273, 385, 521) -/

/-- Outcome of a delete operation (the C functions return `void`; observable
outcomes are the new registry state, a lock-timeout early return, the
`strcmp(NULL, NULL)` undefined behaviour reachable in `sr_sub_conf_del`'s
match predicate, or the `assert(0)` on a missing match). -/
inductive DelOut where
  | ok (s : SubsCtx)
  | mlockFail (s : SubsCtx)
  | strcmpNullUB
  | assertFail
deriving Repr, DecidableEq

/-- Swap-remove: replace element `j` with the last element and drop the
last slot (the C pattern `memcpy(&l[j], &l[count-1], ...); --count;`, where
the `memcpy` is skipped when `j` is already last). -/
def swapRemove {α : Type} (l : List α) (j : Nat) : List α :=
  match l.getLast? with
  | none => []
  | some last => (l.set j last).dropLast

/-- Match predicate of `sr_sub_conf_del` (common.c:145–152), exactly as the
C evaluates it:
`(!xpath && e.xpath) || (xpath && !e.xpath) || strcmp(e.xpath, xpath)`
followed by the priority/opts/cb/private-data comparison.  When both the
requested and the stored xpath are NULL, the first two disjuncts are false
and `strcmp(NULL, NULL)` is evaluated — undefined behaviour, modelled as
`none`. -/
def conf_del_match (e : ConfEntry) (xpath : Option String)
    (priority opts cb pd : Nat) : Option Bool :=
  match xpath, e.xpath with
  | none, some _ => some false
  | some _, none => some false
  | none, none => none
  | some x, some ex =>
      some (ex = x ∧ e.priority = priority ∧ e.opts = opts ∧ e.cb = cb ∧
        e.private_data = pd : Bool)

/-- Scan a group's entry list for the first match; `none` = UB reached,
`some none` = no match, `some (some j)` = first matching index. -/
def findConfEntry (xpath : Option String) (priority opts cb pd : Nat) :
    List ConfEntry → Option (Option Nat)
  | [] => some none
  | e :: rest =>
      match conf_del_match e xpath priority opts cb pd with
      | none => none
      | some true => some (some 0)
      | some false =>
          (findConfEntry xpath priority opts cb pd rest).map (·.map (· + 1))

/-- Scan the group list: skip groups whose (module, datastore) key does not
match, search matching groups' entries.  Same result convention as
`findConfEntry`, with a (group, entry) index pair. -/
def findConfSub (mod_name : String) (ds : Nat) (xpath : Option String)
    (priority opts cb pd : Nat) : List ModsubConf → Option (Option (Nat × Nat))
  | [] => some none
  | g :: rest =>
      if g.ds = ds ∧ g.module_name = mod_name then
        match findConfEntry xpath priority opts cb pd g.subs with
        | none => none
        | some (some j) => some (some (0, j))
        | some none =>
            (findConfSub mod_name ds xpath priority opts cb pd rest).map
              (·.map fun p => (p.1 + 1, p.2))
      else
        (findConfSub mod_name ds xpath priority opts cb pd rest).map
          (·.map fun p => (p.1 + 1, p.2))

/-- `sr_sub_conf_del` (common.c:123): find the unique matching entry,
swap-remove it; if its group empties, swap-remove the group as well. -/
def sr_sub_conf_del (mod_name : String) (xpath : Option String) (ds : Nat)
    (cb pd priority opts : Nat) (mlock_fail : Bool) (s : SubsCtx) : DelOut :=
  if mlock_fail then
    .mlockFail s
  else
    match findConfSub mod_name ds xpath priority opts cb pd s.conf_subs with
    | none => .strcmpNullUB
    | some none => .assertFail
    | some (some (i, j)) =>
        let g := s.conf_subs.getD i ⟨"", 0, shmNull, []⟩
        let rem := swapRemove g.subs j
        if rem.isEmpty then
          .ok { s with conf_subs := swapRemove s.conf_subs i }
        else
          .ok { s with conf_subs := s.conf_subs.set i { g with subs := rem } }

/-- `sr_sub_dp_del` (common.c:273): like the config delete but keyed by
module name and (mandatory) xpath only; the swap-remove is performed
correctly on both levels. -/
def sr_sub_dp_del (mod_name xpath : String) (mlock_fail : Bool) (s : SubsCtx) :
    DelOut :=
  if mlock_fail then
    .mlockFail s
  else
    match s.dp_subs.findIdx? (fun g => g.module_name = mod_name &&
        g.subs.any (fun e => e.xpath = xpath)) with
    | none => .assertFail
    | some i =>
        let g := s.dp_subs.getD i ⟨"", []⟩
        match g.subs.findIdx? (fun e => e.xpath = xpath) with
        | none => .assertFail
        | some j =>
            let rem := swapRemove g.subs j
            if rem.isEmpty then
              .ok { s with dp_subs := swapRemove s.dp_subs i }
            else
              .ok { s with dp_subs := s.dp_subs.set i { g with subs := rem } }

/-- `sr_sub_rpc_del` (common.c:385): finds the matching subscription, but
the swap `memcpy(&rpc_sub, &subs->rpc_subs[count-1], sizeof *rpc_sub)`
writes over the *local pointer variable* `rpc_sub` instead of the array
slot it points to, so no slot is updated; only the count is decremented.
Visibly, the last array element disappears and the matched slot keeps its
(freed-xpath) entry. -/
def sr_sub_rpc_del (xpath : String) (mlock_fail : Bool) (s : SubsCtx) : DelOut :=
  if mlock_fail then
    .mlockFail s
  else
    match s.rpc_subs.findIdx? (fun r => r.xpath = xpath) with
    | none => .assertFail
    | some _ => .ok { s with rpc_subs := s.rpc_subs.dropLast }

/-- Match predicate of `sr_sub_notif_del` (common.c:545–553): the xpath
comparison guards `strcmp` behind `xpath &&`, so the both-NULL case matches
without undefined behaviour. -/
def notif_del_match (e : NotifEntry) (xpath : Option String)
    (start_time stop_time : Int) (cb tree_cb : Option Nat) (pd : Nat) : Bool :=
  (match xpath, e.xpath with
   | none, none => true
   | none, some _ => false
   | some _, none => false
   | some x, some ex => ex = x) &&
  (e.start_time = start_time && e.stop_time = stop_time && e.cb = cb &&
   e.tree_cb = tree_cb && e.private_data = pd)

/-- `sr_sub_notif_del` (common.c:521), modelled in its `has_subs_lock = 0`
form: find the unique matching entry, swap-remove it; if its group
empties, swap-remove the group. -/
def sr_sub_notif_del (mod_name : String) (xpath : Option String)
    (start_time stop_time : Int) (cb tree_cb : Option Nat) (pd : Nat)
    (mlock_fail : Bool) (s : SubsCtx) : DelOut :=
  if mlock_fail then
    .mlockFail s
  else
    match s.notif_subs.findIdx? (fun g => g.module_name = mod_name &&
        g.subs.any (fun e => notif_del_match e xpath start_time stop_time cb tree_cb pd)) with
    | none => .assertFail
    | some i =>
        let g := s.notif_subs.getD i ⟨"", shmNull, []⟩
        match g.subs.findIdx? (fun e =>
            notif_del_match e xpath start_time stop_time cb tree_cb pd) with
        | none => .assertFail
        | some j =>
            let rem := swapRemove g.subs j
            if rem.isEmpty then
              .ok { s with notif_subs := swapRemove s.notif_subs i }
            else
              .ok { s with notif_subs := s.notif_subs.set i { g with subs := rem } }

/-! ## `sr_subs_del_all` (common.c:597) and its helpers -/

/-- `sr_ds2str` (common.c:1938); returns `""` for a value outside the
enum (the C returns NULL there, which no caller passes on). -/
def sr_ds2str (ds : Nat) : String :=
  match ds with
  | 0 => "running"
  | 1 => "startup"
  | 2 => "operational"
  | _ => ""

/-- Character class of the C loop in `sr_get_first_ns`:
`isalnum || '_' || '-' || '.'`. -/
def isNsChar (c : Char) : Bool :=
  c.isAlphanum || c = '_' || c = '-' || c = '.'

/-- `sr_get_first_ns` (common.c:1913): extract the leading module name of
an xpath `/<name>:...` (or `//<name>:...`); `none` when the expression does
not have that shape. -/
def sr_get_first_ns (expr : String) : Option String :=
  match expr.toList with
  | '/' :: rest =>
      let rest2 := if rest.head? = some '/' then rest.tail else rest
      match rest2 with
      | [] => none
      | c :: cs =>
          if c.isAlpha || c = '_' then
            if (cs.dropWhile isNsChar).head? = some ':' then
              some (String.mk (c :: cs.takeWhile isNsChar))
            else
              none
          else
            none
  | _ => none

/-- Hash of a C string given as a Lean `String` (ASCII assumed: Lean code
points coincide with the C bytes). -/
def strHash (s : String) : Nat :=
  sr_str_hash (s.toList.map Char.toNat)

/-- External calls made by `sr_subs_del_all`: the main-SHM directory
unregistrations (`sr_shmmod_*_subscription` with `add = 0`) and the
`unlink` of backing segment files. -/
inductive ExtCall where
  | confUnreg (mod_name : String) (xpath : Option String)
      (ds priority opts evpipe : Nat)
  | dpUnreg (mod_name xpath : String) (evpipe : Nat)
  | rpcUnreg (mod_name xpath : String) (evpipe : Nat)
  | notifUnreg (mod_name : String) (evpipe : Nat)
  | unlinkFile (path : String)
deriving Repr, DecidableEq

/-- Oracle for the external directory calls: success flag and, where the
call reports it, the `last_removed` flag. -/
def ExtOracle : Type := ExtCall → Bool × Bool

/-- Config section, inner loop over one group's entries.  Returns
(failed?, calls made, final value of the C local `last_removed`, which is
overwritten by every call). -/
def delAllConfEntries (o : ExtOracle) (evpipe : Nat) (mod_name : String)
    (ds : Nat) : List ConfEntry → Bool → Bool × List ExtCall × Bool
  | [], lr => (false, [], lr)
  | e :: rest, _lr =>
      let call := ExtCall.confUnreg mod_name e.xpath ds e.priority e.opts evpipe
      let r := o call
      if r.1 = false then
        (true, [call], r.2)
      else
        let restRes := delAllConfEntries o evpipe mod_name ds rest r.2
        (restRes.1, call :: restRes.2.1, restRes.2.2)

/-- Config section, outer loop over groups.  `lr` is the single C local
`last_removed`, threaded across groups (it is only assigned inside the
entry loop, so a group with no entries reuses the previous group's
value). -/
def delAllConfGroups (o : ExtOracle) (evpipe : Nat) (shm_dir : String) :
    List ModsubConf → Bool → Bool × List ExtCall × Bool
  | [], lr => (false, [], lr)
  | g :: rest, lr =>
      let inner := delAllConfEntries o evpipe g.module_name g.ds g.subs lr
      if inner.1 then
        (true, inner.2.1, inner.2.2)
      else
        let unl : List ExtCall :=
          if inner.2.2 then
            [.unlinkFile (sr_path_sub_shm shm_dir g.module_name (sr_ds2str g.ds) (-1) true)]
          else []
        let next := delAllConfGroups o evpipe shm_dir rest inner.2.2
        (next.1, inner.2.1 ++ unl ++ next.2.1, next.2.2)

/-- Data-provide section, inner loop: each entry is unregistered and its
per-path segment file unlinked unconditionally. -/
def delAllDpEntries (o : ExtOracle) (evpipe : Nat) (mod_name shm_dir : String) :
    List DpEntry → Bool × List ExtCall
  | [] => (false, [])
  | e :: rest =>
      let call := ExtCall.dpUnreg mod_name e.xpath evpipe
      if (o call).1 = false then
        (true, [call])
      else
        let unl := ExtCall.unlinkFile
          (sr_path_sub_shm shm_dir mod_name "state" (strHash e.xpath) true)
        let next := delAllDpEntries o evpipe mod_name shm_dir rest
        (next.1, call :: unl :: next.2)

/-- Data-provide section, outer loop over groups. -/
def delAllDpGroups (o : ExtOracle) (evpipe : Nat) (shm_dir : String) :
    List ModsubDp → Bool × List ExtCall
  | [] => (false, [])
  | g :: rest =>
      let inner := delAllDpEntries o evpipe g.module_name shm_dir g.subs
      if inner.1 then
        (true, inner.2)
      else
        let next := delAllDpGroups o evpipe shm_dir rest
        (next.1, inner.2 ++ next.2)

/-- RPC section: the module name is re-derived from the subscription xpath
via `sr_get_first_ns`; a NULL result is an internal error and an early
return. -/
def delAllRpc (o : ExtOracle) (evpipe : Nat) (shm_dir : String) :
    List ModsubRpc → Bool × List ExtCall
  | [] => (false, [])
  | r :: rest =>
      match sr_get_first_ns r.xpath with
      | none => (true, [])
      | some mod_name =>
          let call := ExtCall.rpcUnreg mod_name r.xpath evpipe
          if (o call).1 = false then
            (true, [call])
          else
            let unl := ExtCall.unlinkFile
              (sr_path_sub_shm shm_dir mod_name "rpc" (strHash r.xpath) true)
            let next := delAllRpc o evpipe shm_dir rest
            (next.1, call :: unl :: next.2)

/-- Notification section, inner loop: one unregistration per entry (the
call takes only the module name). -/
def delAllNotifEntries (o : ExtOracle) (evpipe : Nat) (mod_name : String) :
    List NotifEntry → Bool → Bool × List ExtCall × Bool
  | [], lr => (false, [], lr)
  | _e :: rest, _lr =>
      let call := ExtCall.notifUnreg mod_name evpipe
      let r := o call
      if r.1 = false then
        (true, [call], r.2)
      else
        let restRes := delAllNotifEntries o evpipe mod_name rest r.2
        (restRes.1, call :: restRes.2.1, restRes.2.2)

/-- Notification section, outer loop over groups. -/
def delAllNotifGroups (o : ExtOracle) (evpipe : Nat) (shm_dir : String) :
    List ModsubNotif → Bool → Bool × List ExtCall × Bool
  | [], lr => (false, [], lr)
  | g :: rest, lr =>
      let inner := delAllNotifEntries o evpipe g.module_name g.subs lr
      if inner.1 then
        (true, inner.2.1, inner.2.2)
      else
        let unl : List ExtCall :=
          if inner.2.2 then
            [.unlinkFile (sr_path_sub_shm shm_dir g.module_name "notif" (-1) true)]
          else []
        let next := delAllNotifGroups o evpipe shm_dir rest inner.2.2
        (next.1, inner.2.1 ++ unl ++ next.2.1, next.2.2)

/-- `sr_subs_del_all` (common.c:597): unregister every subscription of
every kind from the main SHM directory, unlink backing files, free all
dynamic memory.  The function reads the four (array, count) pairs but
never assigns to any field of `*subs` — the counts and array pointers keep
their prior values at return — so the registry state it returns is the
input state unchanged.  `lr0` is the initial (uninitialised) value of the C
local `last_removed`.  Returns (failed?, registry state at return, external
call trace). -/
def sr_subs_del_all (o : ExtOracle) (shm_dir : String) (lr0 : Bool)
    (s : SubsCtx) : Bool × SubsCtx × List ExtCall :=
  let conf := delAllConfGroups o s.evpipe_num shm_dir s.conf_subs lr0
  if conf.1 then
    (true, s, conf.2.1)
  else
    let dp := delAllDpGroups o s.evpipe_num shm_dir s.dp_subs
    if dp.1 then
      (true, s, conf.2.1 ++ dp.2)
    else
      let rpc := delAllRpc o s.evpipe_num shm_dir s.rpc_subs
      if rpc.1 then
        (true, s, conf.2.1 ++ dp.2 ++ rpc.2)
      else
        let ntf := delAllNotifGroups o s.evpipe_num shm_dir s.notif_subs conf.2.2
        (ntf.1, s, conf.2.1 ++ dp.2 ++ rpc.2 ++ ntf.2.1)

/-! ## Multi-phase commit dispatch order (spec §4.4; the event-commit
protocol implementation is not part of `src/common.c`, so it is modelled
from the spec) -/

/-- Modelled from the spec: one config-change subscriber of a group, with
its numeric priority and its insertion index (position in the group's
insertion-ordered entry list). -/
structure SpecConfSub where
  priority : Nat
  ins : Nat
deriving Repr, DecidableEq

/-- Priority comparison used to order CHANGE deliveries. -/
def prioLE (a b : SpecConfSub) : Prop := a.priority ≤ b.priority

instance : DecidableRel prioLE :=
  fun a b => inferInstanceAs (Decidable (a.priority ≤ b.priority))

instance : IsTotal SpecConfSub prioLE :=
  ⟨fun a b => Nat.le_total a.priority b.priority⟩

instance : IsTrans SpecConfSub prioLE :=
  ⟨fun _ _ _ => Nat.le_trans⟩

/-- Modelled from the spec: the CHANGE invocation order — lower numeric
priority first, ties broken by insertion order (a stable sort of the
insertion-ordered subscriber list). -/
def changeOrder (subs : List SpecConfSub) : List SpecConfSub :=
  List.insertionSort prioLE subs

/-- Modelled from the spec: the subscribers actually notified of a CHANGE —
delivery proceeds in `changeOrder` and stops at (and includes) the first
failing subscriber. -/
def changeNotified (fails : SpecConfSub → Bool) : List SpecConfSub → List SpecConfSub
  | [] => []
  | x :: rest => if fails x then [x] else x :: changeNotified fails rest

/-- Modelled from the spec: a CHANGE phase followed, on failure, by the
ABORT phase.  Returns (subscribers notified of CHANGE in delivery order,
subscribers notified of ABORT in delivery order).  ABORT goes only to the
already-notified subscribers, in reverse order. -/
def changeDispatch (subs : List SpecConfSub) (fails : SpecConfSub → Bool) :
    List SpecConfSub × List SpecConfSub :=
  let ord := changeOrder subs
  if ord.any fails then
    let notified := changeNotified fails ord
    (notified, notified.reverse)
  else
    (ord, [])

/-! ## Theorems -/

/-- The spec-side recursion and the code-side fold compute the same hash
state. -/
theorem jenkins_oaat_core_eq_foldl (l : List Nat) (h : Nat) :
    jenkins_oaat_core h l = l.foldl sr_str_hash_step h := by
  induction l generalizing h with
  | nil => rfl
  | cons b rest ih => simp [jenkins_oaat_core, List.foldl, sr_str_hash_step, ih]

/-- C6: for every module name, kind suffix and non-negative discriminator
below `2 ^ 32`, `sr_path_sub_shm` produces exactly
`<root>/sr_<module>.<suffix>.<8-hex-digit lowercase discriminator>`, and
`<root>/sr_<module>.<suffix>` when the discriminator is absent
(`suffix2 = -1`); and the discriminator hash `sr_str_hash` agrees
bit-for-bit with the documented Jenkins one-at-a-time algorithm on every
byte sequence (hence is equal across repeated calls with the same path). -/
theorem sr_path_sub_shm_matches_spec (root mod_name sfx : String) (d : Nat)
    (hd : d < 2 ^ 32) :
    sr_path_sub_shm root mod_name sfx (d : Int) true =
      spec_sub_shm_path root mod_name sfx (some d) ∧
    sr_path_sub_shm root mod_name sfx (-1) true =
      spec_sub_shm_path root mod_name sfx none ∧
    ∀ bytes : List Nat, sr_str_hash bytes = jenkins_oaat bytes := by
  refine ⟨?_, by simp [sr_path_sub_shm, spec_sub_shm_path], fun bytes => ?_⟩
  · have hgt : (d : Int) > -1 := by omega
    have hmod : d % 4294967296 = d := by omega
    simp [sr_path_sub_shm, spec_sub_shm_path, hgt, hmod]
  · simp [sr_str_hash, jenkins_oaat, sr_str_hash_finish, jenkins_oaat_core_eq_foldl]

/-- C6 witness: concrete instantiation at discriminator 255. -/
theorem sr_path_sub_shm_matches_spec_witness :
    255 < 2 ^ 32 ∧
    sr_path_sub_shm "/dev/shm" "m1" "state" (255 : Int) true =
      spec_sub_shm_path "/dev/shm" "m1" "state" (some 255) :=
  ⟨by norm_num, (sr_path_sub_shm_matches_spec "/dev/shm" "m1" "state" 255 (by norm_num)).1⟩

/-- C7: every rwlock acquisition that fails with a timeout leaves the
lock's observable state unchanged — the reader counter is what it was and
the caller does not hold the mutex — and this holds for both read and
write mode. -/
theorem sr_rwlock_timeout_state_unchanged (readers : Nat)
    (wr mutexOk condReachesZero : Bool)
    (h : (sr_rwlock readers wr mutexOk condReachesZero).1 = .errTimeout) :
    (sr_rwlock readers wr mutexOk condReachesZero).2.1 = readers ∧
    (sr_rwlock readers wr mutexOk condReachesZero).2.2 = false := by
  unfold sr_rwlock at h ⊢
  cases mutexOk <;> cases wr <;> cases condReachesZero <;>
    by_cases hr : readers = 0 <;> simp_all

/-- C7 witness: a writer acquisition that times out waiting for one
outstanding reader. -/
theorem sr_rwlock_timeout_state_unchanged_witness :
    (sr_rwlock 1 true true false).1 = .errTimeout ∧
    (sr_rwlock 1 true true false).2.1 = 1 ∧
    (sr_rwlock 1 true true false).2.2 = false :=
  ⟨by decide, (sr_rwlock_timeout_state_unchanged 1 true true false (by decide)).1,
    (sr_rwlock_timeout_state_unchanged 1 true true false (by decide)).2⟩

/-- C9 counterexample: with `tv_nsec = 999999999` and
`add_ms = 2 ^ 32 - 1`, the C line `add_ms += ts->tv_nsec / 1000000;` wraps
around the `uint32_t`, and the computed timeout is not the current time
plus `add_ms` milliseconds. -/
theorem sr_time_get_overflow_counterexample :
    (sr_time_get 0 999999999 4294967295).1 * 1000000000 +
        ((sr_time_get 0 999999999 4294967295).2 : Int) ≠
      (0 : Int) * 1000000000 + 999999999 + 4294967295 * 1000000 := by
  decide

/-- C9 (amended): for every current time with `tv_nsec ∈ [0, 10^9)` and
every `add_ms` such that `add_ms + tv_nsec / 10^6` does not overflow the
32-bit unsigned accumulator, the computed absolute timeout equals the
current time plus exactly `add_ms` milliseconds (total nanoseconds
preserved) and the result is normalised (`tv_nsec ∈ [0, 10^9)`). -/
theorem sr_time_get_adds_ms (sec : Int) (nsec add_ms : Nat)
    (_h1 : nsec < 1000000000) (h2 : add_ms + nsec / 1000000 < 2 ^ 32) :
    (sr_time_get sec nsec add_ms).1 * 1000000000 +
        ((sr_time_get sec nsec add_ms).2 : Int) =
      sec * 1000000000 + nsec + add_ms * 1000000 ∧
    (sr_time_get sec nsec add_ms).2 < 1000000000 := by
  unfold sr_time_get
  rw [Nat.mod_eq_of_lt h2]
  constructor
  · push_cast
    ring_nf
    omega
  · simp only
    omega

/-- C9 witness: a small concrete input satisfying the no-overflow
hypothesis. -/
theorem sr_time_get_adds_ms_witness :
    (sr_time_get 100 999999999 2500).1 * 1000000000 +
        ((sr_time_get 100 999999999 2500).2 : Int) =
      (100 : Int) * 1000000000 + 999999999 + 2500 * 1000000 :=
  (sr_time_get_adds_ms 100 999999999 2500 (by norm_num) (by norm_num)).1

/-- C5: for every config group and CHANGE phase, subscribers are invoked
in ascending numeric priority order (a stable sort of the insertion
order, so ties keep insertion order); each subscriber is considered
exactly once; on a failure the ABORT phase is delivered exactly to the
already-notified subscribers in reverse order; and a subscriber never
notified of the CHANGE never receives the corresponding ABORT. -/
theorem change_dispatch_priority_order (subs : List SpecConfSub)
    (fails : SpecConfSub → Bool) :
    List.Sorted prioLE (changeOrder subs) ∧
    (changeOrder subs).Perm subs ∧
    ((changeOrder subs).any fails = true →
      (changeDispatch subs fails).2 = (changeDispatch subs fails).1.reverse) ∧
    (∀ x, x ∉ (changeDispatch subs fails).1 → x ∉ (changeDispatch subs fails).2) := by
  refine ⟨List.sorted_insertionSort prioLE subs, List.perm_insertionSort prioLE subs,
    fun hfail => ?_, fun x hx => ?_⟩
  · simp [changeDispatch, hfail]
  · by_cases hfail : (changeOrder subs).any fails = true
    · simp only [changeDispatch, hfail, if_pos] at hx ⊢
      simpa using hx
    · simp [changeDispatch, hfail]

/-- C5 witness: subscribers at priorities 10, 5, 20 (in that insertion
order) with the priority-10 subscriber failing: CHANGE reaches 5 then 10,
ABORT is delivered to 10 then 5, and the priority-20 subscriber receives
no ABORT. -/
theorem change_dispatch_priority_order_witness :
    (changeDispatch [⟨10, 0⟩, ⟨5, 1⟩, ⟨20, 2⟩] (fun x => x.priority == 10)).1 =
      [⟨5, 1⟩, ⟨10, 0⟩] ∧
    (changeDispatch [⟨10, 0⟩, ⟨5, 1⟩, ⟨20, 2⟩] (fun x => x.priority == 10)).2 =
      [⟨10, 0⟩, ⟨5, 1⟩] ∧
    (⟨20, 2⟩ : SpecConfSub) ∉
      (changeDispatch [⟨10, 0⟩, ⟨5, 1⟩, ⟨20, 2⟩] (fun x => x.priority == 10)).2 :=
  ⟨by decide, by decide,
    (change_dispatch_priority_order [⟨10, 0⟩, ⟨5, 1⟩, ⟨20, 2⟩]
      (fun x => x.priority == 10)).2.2.2 ⟨20, 2⟩ (by decide)⟩

/-- C8: `sr_shm_remap` reads the file size exactly when no explicit new
size is given; when the relevant size (explicit new size, or the file size
read) equals the mapping's current size it is a no-op changing neither the
address nor the size; otherwise, on success, the old mapping (if any) was
unmapped, the file was truncated to the requested size exactly when an
explicit new size was given, and the region was remapped read-write and
shared with the segment's size field set to the new size. -/
theorem sr_shm_remap_behaviour (shm : Shm) (new_size : Nat) (fs : Option Nat)
    (ft : Bool) (mm : Option Nat) :
    (new_size = 0 →
      (sr_shm_remap shm new_size fs ft mm).2.2.head? = some .fstatEv) ∧
    (new_size = 0 → fs = some shm.size →
      sr_shm_remap shm new_size fs ft mm = (false, shm, [.fstatEv])) ∧
    (new_size ≠ 0 → new_size = shm.size →
      sr_shm_remap shm new_size fs ft mm = (false, shm, [])) ∧
    (∀ fsv : Nat,
      (new_size = 0 ∧ fs = some fsv ∧ fsv ≠ shm.size) ∨
        (new_size ≠ 0 ∧ new_size ≠ shm.size) →
      (sr_shm_remap shm new_size fs ft mm).1 = false →
      ((ShmEvent.munmapEv ∈ (sr_shm_remap shm new_size fs ft mm).2.2) ↔
        shm.addr.isSome = true) ∧
      (new_size ≠ 0 →
        ShmEvent.ftruncateEv new_size ∈ (sr_shm_remap shm new_size fs ft mm).2.2) ∧
      (new_size = 0 →
        ∀ n, ShmEvent.ftruncateEv n ∉ (sr_shm_remap shm new_size fs ft mm).2.2) ∧
      (sr_shm_remap shm new_size fs ft mm).2.1.size =
        (if new_size ≠ 0 then new_size else fsv) ∧
      (sr_shm_remap shm new_size fs ft mm).2.1.addr = mm ∧
      ShmEvent.mmapEv (if new_size ≠ 0 then new_size else fsv) true true ∈
        (sr_shm_remap shm new_size fs ft mm).2.2) := by
  refine ⟨?_, ?_, ?_, ?_⟩
  · intro h0
    subst h0
    cases fs with
    | none => rfl
    | some fsv =>
        by_cases hsz : fsv = shm.size
        · simp [sr_shm_remap, sr_shm_remap_core, hsz]
        · cases mm <;> cases hft : ft <;> cases ha : shm.addr <;>
            simp [sr_shm_remap, sr_shm_remap_core, hsz, ha]
  · intro h0 hfs
    subst h0
    rw [hfs]
    simp [sr_shm_remap, sr_shm_remap_core]
  · intro h0 hsz
    simp [sr_shm_remap, sr_shm_remap_core, h0, hsz.symm]
  · intro fsv hrel hok
    rcases hrel with ⟨h0, hfs, hsz⟩ | ⟨h0, hsz⟩
    · subst h0
      rw [hfs] at hok ⊢
      cases mm with
      | none =>
          exfalso
          revert hok
          simp [sr_shm_remap, sr_shm_remap_core, hsz]
      | some a =>
          cases ha : shm.addr <;>
            simp [sr_shm_remap, sr_shm_remap_core, hsz, ha]
    · cases mm with
      | none =>
          exfalso
          revert hok
          by_cases hft : ft <;>
            simp [sr_shm_remap, sr_shm_remap_core, h0, hsz, hft]
      | some a =>
          by_cases hft : ft
          · cases ha : shm.addr <;>
              simp [sr_shm_remap, sr_shm_remap_core, h0, hsz, hft, ha]
          · exfalso
            revert hok
            simp [sr_shm_remap, sr_shm_remap_core, h0, hsz, hft]

/-- C8 witness: growing a 100-byte mapped segment to an explicit 200
bytes succeeds with the documented effects. -/
theorem sr_shm_remap_behaviour_witness :
    (sr_shm_remap ⟨3, 100, some 1000⟩ 200 none true (some 2000)).2.1.size =
      (if (200 : Nat) ≠ 0 then 200 else 0) ∧
    (sr_shm_remap ⟨3, 100, some 1000⟩ 200 none true (some 2000)).2.1.addr = some 2000 ∧
    ShmEvent.munmapEv ∈ (sr_shm_remap ⟨3, 100, some 1000⟩ 200 none true (some 2000)).2.2 :=
  ⟨((sr_shm_remap_behaviour ⟨3, 100, some 1000⟩ 200 none true (some 2000)).2.2.2 0
      (Or.inr ⟨by decide, by decide⟩) (by decide)).2.2.2.1,
   ((sr_shm_remap_behaviour ⟨3, 100, some 1000⟩ 200 none true (some 2000)).2.2.2 0
      (Or.inr ⟨by decide, by decide⟩) (by decide)).2.2.2.2.1,
   (((sr_shm_remap_behaviour ⟨3, 100, some 1000⟩ 200 none true (some 2000)).2.2.2 0
      (Or.inr ⟨by decide, by decide⟩) (by decide)).1).mpr (by decide)⟩

/-- C1: the claim "a failed add leaves the registry exactly as before"
fails on the code.  When `sr_sub_conf_add` creates a new group and
`sr_shmsub_open_map` fails, the count was never incremented (increment is
after the open), yet the error cleanup runs `--subs->conf_sub_count`
because `mem[1]` is non-NULL — so a pre-existing group disappears from the
visible registry: starting from one group, the failed add returns an error
with zero groups. -/
theorem conf_add_shm_open_failure_corrupts_registry :
    (sr_sub_conf_add "newmod" none 0 2 0 0 0
        ⟨false, false, false, none, false, false⟩
        ⟨[⟨"existing", 0, shmNull, [⟨none, 0, 0, 1, 0, 0, 0⟩]⟩], [], [], [], 5⟩).err
      = true ∧
    (sr_sub_conf_add "newmod" none 0 2 0 0 0
        ⟨false, false, false, none, false, false⟩
        ⟨[⟨"existing", 0, shmNull, [⟨none, 0, 0, 1, 0, 0, 0⟩]⟩], [], [], [], 5⟩).state.conf_subs
      = [] := by
  decide

/-- C2: the claim that RPC delete swap-removes the matched entry and keeps
the formerly-last entry fails on the code.  `sr_sub_rpc_del` line 409 does
`memcpy(&rpc_sub, ..., sizeof *rpc_sub)` into the local *pointer* instead
of the slot it points to, so the slot is never overwritten and only the
count drops: deleting `"/m:a"` from `["/m:a", "/m:b"]` leaves the visible
array `["/m:a"]` — the matched entry is still present and the
formerly-last `"/m:b"` entry is gone. -/
theorem rpc_del_loses_last_entry :
    sr_sub_rpc_del "/m:a" false
        ⟨[], [], [⟨"/m:a", some 1, none, 0, shmNull⟩,
                  ⟨"/m:b", some 2, none, 0, shmNull⟩], [], 0⟩
      = .ok ⟨[], [], [⟨"/m:a", some 1, none, 0, shmNull⟩], [], 0⟩ ∧
    (⟨"/m:b", some 2, none, 0, shmNull⟩ : ModsubRpc) ∉
      (⟨[], [], [⟨"/m:a", some 1, none, 0, shmNull⟩], [], 0⟩ : SubsCtx).rpc_subs := by
  decide

/-- C3: the claim that a both-NULL path comparison matches without
reaching an undefined branch fails on the code.  The match predicate of
`sr_sub_conf_del` (common.c:145) short-circuits to
`strcmp(conf_sub->subs[j].xpath, xpath)` when both xpaths are NULL —
undefined behaviour — so deleting a whole-module config subscription that
was added with a NULL path evaluates `strcmp(NULL, NULL)` instead of
matching. -/
theorem conf_del_null_xpath_reaches_strcmp_ub :
    sr_sub_conf_del "m1" none 0 7 9 0 0 false
        ⟨[⟨"m1", 0, shmNull, [⟨none, 0, 0, 7, 9, 0, 0⟩]⟩], [], [], [], 0⟩
      = .strcmpNullUB := by
  decide

/-- C10: the claim that every add/delete releases the subs lock on every
return path fails on the code.  In `sr_sub_conf_add`, the `strdup(xpath)`
failure is checked with `SR_CHECK_MEM_RET` (common.c:89), which returns
the error directly — skipping the `error_unlock` label — so the function
returns an error while still holding the subs lock. -/
theorem conf_add_strdup_xpath_failure_keeps_lock :
    (sr_sub_conf_add "m1" (some "/m1:a") 0 1 0 0 0
        ⟨false, false, false, some shmNull, false, true⟩
        ⟨[], [], [], [], 0⟩).err = true ∧
    (sr_sub_conf_add "m1" (some "/m1:a") 0 1 0 0 0
        ⟨false, false, false, some shmNull, false, true⟩
        ⟨[], [], [], [], 0⟩).lock_held = true := by
  decide

/-- Helper: a successful config inner loop issued one directory
unregistration per entry. -/
theorem delAllConfEntries_calls (o : ExtOracle) (evpipe : Nat)
    (mod_name : String) (ds : Nat) (l : List ConfEntry) :
    ∀ lr : Bool, (delAllConfEntries o evpipe mod_name ds l lr).1 = false →
      ∀ e ∈ l, ExtCall.confUnreg mod_name e.xpath ds e.priority e.opts evpipe ∈
        (delAllConfEntries o evpipe mod_name ds l lr).2.1 := by
  induction l with
  | nil => intro lr _ e he; cases he
  | cons a rest ih =>
      intro lr h e he
      simp only [delAllConfEntries] at h ⊢
      cases hc : (o (ExtCall.confUnreg mod_name a.xpath ds a.priority a.opts evpipe)).1 with
      | false => simp [hc] at h
      | true =>
          simp only [hc] at h ⊢
          simp only [Bool.true_eq_false, if_false] at h ⊢
          rcases List.mem_cons.mp he with rfl | hmem
          · exact List.mem_cons_self _ _
          · exact List.mem_cons_of_mem _ (ih _ h e hmem)

/-- Helper: a successful config section issued one directory
unregistration per entry of every group. -/
theorem delAllConfGroups_calls (o : ExtOracle) (evpipe : Nat)
    (shm_dir : String) (l : List ModsubConf) :
    ∀ lr : Bool, (delAllConfGroups o evpipe shm_dir l lr).1 = false →
      ∀ g ∈ l, ∀ e ∈ g.subs,
        ExtCall.confUnreg g.module_name e.xpath g.ds e.priority e.opts evpipe ∈
          (delAllConfGroups o evpipe shm_dir l lr).2.1 := by
  induction l with
  | nil => intro lr _ g hg; cases hg
  | cons a rest ih =>
      intro lr h g hg e he
      simp only [delAllConfGroups] at h ⊢
      cases hin : (delAllConfEntries o evpipe a.module_name a.ds a.subs lr).1 with
      | true => simp [hin] at h
      | false =>
          simp only [hin, Bool.false_eq_true, if_false] at h ⊢
          rcases List.mem_cons.mp hg with rfl | hmem
          · exact List.mem_append_left _ (List.mem_append_left _
              (delAllConfEntries_calls o evpipe g.module_name g.ds g.subs lr hin e he))
          · exact List.mem_append_right _ (ih _ h g hmem e he)

/-- Helper: a successful data-provide inner loop issued one directory
unregistration per entry. -/
theorem delAllDpEntries_calls (o : ExtOracle) (evpipe : Nat)
    (mod_name shm_dir : String) (l : List DpEntry) :
    (delAllDpEntries o evpipe mod_name shm_dir l).1 = false →
      ∀ e ∈ l, ExtCall.dpUnreg mod_name e.xpath evpipe ∈
        (delAllDpEntries o evpipe mod_name shm_dir l).2 := by
  induction l with
  | nil => intro _ e he; cases he
  | cons a rest ih =>
      intro h e he
      simp only [delAllDpEntries] at h ⊢
      cases hc : (o (ExtCall.dpUnreg mod_name a.xpath evpipe)).1 with
      | false => simp [hc] at h
      | true =>
          simp only [hc] at h ⊢
          simp only [Bool.true_eq_false, if_false] at h ⊢
          rcases List.mem_cons.mp he with rfl | hmem
          · exact List.mem_cons_self _ _
          · exact List.mem_cons_of_mem _ (List.mem_cons_of_mem _ (ih h e hmem))

/-- Helper: a successful data-provide section issued one directory
unregistration per entry of every group. -/
theorem delAllDpGroups_calls (o : ExtOracle) (evpipe : Nat)
    (shm_dir : String) (l : List ModsubDp) :
    (delAllDpGroups o evpipe shm_dir l).1 = false →
      ∀ g ∈ l, ∀ e ∈ g.subs,
        ExtCall.dpUnreg g.module_name e.xpath evpipe ∈
          (delAllDpGroups o evpipe shm_dir l).2 := by
  induction l with
  | nil => intro _ g hg; cases hg
  | cons a rest ih =>
      intro h g hg e he
      simp only [delAllDpGroups] at h ⊢
      cases hin : (delAllDpEntries o evpipe a.module_name shm_dir a.subs).1 with
      | true => simp [hin] at h
      | false =>
          simp only [hin, Bool.false_eq_true, if_false] at h ⊢
          rcases List.mem_cons.mp hg with rfl | hmem
          · exact List.mem_append_left _
              (delAllDpEntries_calls o evpipe g.module_name shm_dir g.subs hin e he)
          · exact List.mem_append_right _ (ih h g hmem e he)

/-- Helper: a successful RPC section issued one directory unregistration
per subscription, under the module name parsed from its xpath. -/
theorem delAllRpc_calls (o : ExtOracle) (evpipe : Nat) (shm_dir : String)
    (l : List ModsubRpc) :
    (delAllRpc o evpipe shm_dir l).1 = false →
      ∀ r ∈ l, ∃ m, sr_get_first_ns r.xpath = some m ∧
        ExtCall.rpcUnreg m r.xpath evpipe ∈ (delAllRpc o evpipe shm_dir l).2 := by
  induction l with
  | nil => intro _ r hr; cases hr
  | cons a rest ih =>
      intro h r hr
      simp only [delAllRpc] at h ⊢
      cases hns : sr_get_first_ns a.xpath with
      | none => simp [hns] at h
      | some m =>
          simp only [hns] at h ⊢
          cases hc : (o (ExtCall.rpcUnreg m a.xpath evpipe)).1 with
          | false => simp [hc] at h
          | true =>
              simp only [hc] at h ⊢
              simp only [Bool.true_eq_false, if_false] at h ⊢
              rcases List.mem_cons.mp hr with rfl | hmem
              · exact ⟨m, hns, List.mem_cons_self _ _⟩
              · obtain ⟨m2, hm2, hmem2⟩ := ih h r hmem
                exact ⟨m2, hm2,
                  List.mem_cons_of_mem _ (List.mem_cons_of_mem _ hmem2)⟩

/-- Helper: a successful notification inner loop issued one directory
unregistration per entry. -/
theorem delAllNotifEntries_calls (o : ExtOracle) (evpipe : Nat)
    (mod_name : String) (l : List NotifEntry) :
    ∀ lr : Bool, (delAllNotifEntries o evpipe mod_name l lr).1 = false →
      l ≠ [] → ExtCall.notifUnreg mod_name evpipe ∈
        (delAllNotifEntries o evpipe mod_name l lr).2.1 := by
  intro lr h hne
  cases l with
  | nil => exact absurd rfl hne
  | cons a rest =>
      simp only [delAllNotifEntries] at h ⊢
      cases hc : (o (ExtCall.notifUnreg mod_name evpipe)).1 with
      | false => simp [hc] at h
      | true =>
          simp only [hc] at h ⊢
          simp only [Bool.true_eq_false, if_false] at h ⊢
          exact List.mem_cons_self _ _

/-- Helper: a successful notification section issued a directory
unregistration for every group with at least one entry. -/
theorem delAllNotifGroups_calls (o : ExtOracle) (evpipe : Nat)
    (shm_dir : String) (l : List ModsubNotif) :
    ∀ lr : Bool, (delAllNotifGroups o evpipe shm_dir l lr).1 = false →
      ∀ g ∈ l, g.subs ≠ [] →
        ExtCall.notifUnreg g.module_name evpipe ∈
          (delAllNotifGroups o evpipe shm_dir l lr).2.1 := by
  induction l with
  | nil => intro lr _ g hg; cases hg
  | cons a rest ih =>
      intro lr h g hg hne
      simp only [delAllNotifGroups] at h ⊢
      cases hin : (delAllNotifEntries o evpipe a.module_name a.subs lr).1 with
      | true => simp [hin] at h
      | false =>
          simp only [hin, Bool.false_eq_true, if_false] at h ⊢
          rcases List.mem_cons.mp hg with rfl | hmem
          · exact List.mem_append_left _ (List.mem_append_left _
              (delAllNotifEntries_calls o evpipe g.module_name g.subs lr hin hne))
          · exact List.mem_append_right _ (ih _ h g hmem hne)

/-- Helper: `sr_subs_del_all` never assigns to any field of the handle, so
the registry state it returns is its input, on every path. -/
theorem subs_del_all_state_unchanged (o : ExtOracle) (shm_dir : String)
    (lr0 : Bool) (s : SubsCtx) :
    (sr_subs_del_all o shm_dir lr0 s).2.1 = s := by
  simp only [sr_subs_del_all]
  split
  · rfl
  · split
    · rfl
    · split
      · rfl
      · rfl

/-- C4 counterexample: a registry holding one successfully-added RPC
subscription, `sr_subs_del_all` with every external call succeeding:
the function returns success, yet the handle's RPC group list still has
its element — no count is reset to zero (the function frees memory but
never assigns the four counts or array pointers). -/
theorem subs_del_all_does_not_zero_counts :
    (sr_subs_del_all (fun _ => (true, false)) "/dev/shm" false
        ⟨[], [], [⟨"/m:a", some 1, none, 0, shmNull⟩], [], 7⟩).1 = false ∧
    (sr_subs_del_all (fun _ => (true, false)) "/dev/shm" false
        ⟨[], [], [⟨"/m:a", some 1, none, 0, shmNull⟩], [], 7⟩).2.1.rpc_subs ≠ [] := by
  decide

/-- C4 (amended): after a successful `sr_subs_del_all`, every subscription
of every kind has been unregistered from the external module directory
(one `sr_shmmod_*_subscription` call per entry appears in the external
call trace), but the handle's four group lists/counts are left exactly as
they were — they are not reset to zero, the caller must discard the
handle. -/
theorem subs_del_all_unregisters_everything (o : ExtOracle) (shm_dir : String)
    (lr0 : Bool) (s : SubsCtx)
    (h : (sr_subs_del_all o shm_dir lr0 s).1 = false) :
    (sr_subs_del_all o shm_dir lr0 s).2.1 = s ∧
    (∀ g ∈ s.conf_subs, ∀ e ∈ g.subs,
      ExtCall.confUnreg g.module_name e.xpath g.ds e.priority e.opts s.evpipe_num ∈
        (sr_subs_del_all o shm_dir lr0 s).2.2) ∧
    (∀ g ∈ s.dp_subs, ∀ e ∈ g.subs,
      ExtCall.dpUnreg g.module_name e.xpath s.evpipe_num ∈
        (sr_subs_del_all o shm_dir lr0 s).2.2) ∧
    (∀ r ∈ s.rpc_subs, ∃ m, sr_get_first_ns r.xpath = some m ∧
      ExtCall.rpcUnreg m r.xpath s.evpipe_num ∈
        (sr_subs_del_all o shm_dir lr0 s).2.2) ∧
    (∀ g ∈ s.notif_subs, g.subs ≠ [] →
      ExtCall.notifUnreg g.module_name s.evpipe_num ∈
        (sr_subs_del_all o shm_dir lr0 s).2.2) := by
  refine ⟨subs_del_all_state_unchanged o shm_dir lr0 s, ?_⟩
  simp only [sr_subs_del_all] at h ⊢
  cases hconf : (delAllConfGroups o s.evpipe_num shm_dir s.conf_subs lr0).1 with
  | true => simp [hconf] at h
  | false =>
      simp only [hconf, Bool.false_eq_true, if_false] at h ⊢
      cases hdp : (delAllDpGroups o s.evpipe_num shm_dir s.dp_subs).1 with
      | true => simp [hdp] at h
      | false =>
          simp only [hdp, Bool.false_eq_true, if_false] at h ⊢
          cases hrpc : (delAllRpc o s.evpipe_num shm_dir s.rpc_subs).1 with
          | true => simp [hrpc] at h
          | false =>
              simp only [hrpc, Bool.false_eq_true, if_false] at h ⊢
              refine ⟨fun g hg e he => ?_, fun g hg e he => ?_,
                fun r hr => ?_, fun g hg hne => ?_⟩
              · exact List.mem_append_left _ (List.mem_append_left _
                  (List.mem_append_left _
                    (delAllConfGroups_calls o s.evpipe_num shm_dir s.conf_subs lr0
                      hconf g hg e he)))
              · exact List.mem_append_left _ (List.mem_append_left _
                  (List.mem_append_right _
                    (delAllDpGroups_calls o s.evpipe_num shm_dir s.dp_subs
                      hdp g hg e he)))
              · obtain ⟨m, hm, hmem⟩ :=
                  delAllRpc_calls o s.evpipe_num shm_dir s.rpc_subs hrpc r hr
                exact ⟨m, hm, List.mem_append_left _ (List.mem_append_right _ hmem)⟩
              · exact List.mem_append_right _
                  (delAllNotifGroups_calls o s.evpipe_num shm_dir s.notif_subs
                    (delAllConfGroups o s.evpipe_num shm_dir s.conf_subs lr0).2.2
                    h g hg hne)

/-- C4 amended witness: the concrete one-RPC registry with an
all-successful oracle. -/
theorem subs_del_all_unregisters_everything_witness :
    (sr_subs_del_all (fun _ => (true, false)) "/dev/shm" false
        ⟨[], [], [⟨"/m:a", some 1, none, 0, shmNull⟩], [], 7⟩).2.1 =
      ⟨[], [], [⟨"/m:a", some 1, none, 0, shmNull⟩], [], 7⟩ :=
  (subs_del_all_unregisters_everything (fun _ => (true, false)) "/dev/shm" false
    ⟨[], [], [⟨"/m:a", some 1, none, 0, shmNull⟩], [], 7⟩ (by decide)).1

end Sysrepo
